import Mathlib

/-!
Shallow embedding of the `egui-modal-spinner` crate (`src/lib.rs`).

The crate is a single widget: `ModalSpinner`, a modal overlay with an
open/closed state.  We embed the data model and the per-frame `update`
method as pure Lean functions.  `f32` sizes are modelled by `ℚ`,
`SystemTime` by a `Nat` timestamp, and the egui context by an explicit
`Context` record holding the pieces the widget reads or writes: the
input screen rectangle, the shared style, and the layer stacking order
(head of the list = top-most layer).  What `update` draws is returned
as an `AreaOutput` record.
-/

/-- Embeds `egui::Color32`: four channel values r, g, b, a. -/
structure Color32 where
  r : Nat
  g : Nat
  b : Nat
  a : Nat
deriving DecidableEq

/-- Embeds `egui::Color32::from_rgba_premultiplied`. -/
def Color32.from_rgba_premultiplied (r g b a : Nat) : Color32 :=
  ⟨r, g, b, a⟩

/-- Embeds `egui::Id`; `egui::Id::from(s)` keys an overlay layer by the string `s`. -/
inductive EguiId where
  | ofString (s : String)
deriving DecidableEq

/-- Embeds `egui::Rect` as min/max corners. -/
structure Rect where
  min_x : ℚ
  min_y : ℚ
  max_x : ℚ
  max_y : ℚ
deriving DecidableEq

/-- `Rect::height()`. -/
def Rect.height (r : Rect) : ℚ := r.max_y - r.min_y

/-- `Rect::left_top()`. -/
def Rect.left_top (r : Rect) : ℚ × ℚ := (r.min_x, r.min_y)

/-- `SpinnerState` from `src/lib.rs` lines 10-17: `Closed`, or `Open(timestamp)`. -/
inductive SpinnerState where
  | Closed
  | Open (timestamp : Nat)
deriving DecidableEq

/-- The internal `Spinner` wrapper (`src/lib.rs` lines 148-151): optional size
and color overrides for the rendered glyph. -/
structure Spinner where
  size : Option ℚ
  color : Option Color32
deriving DecidableEq

/-- `impl Default for Spinner` (`src/lib.rs` lines 153-160). -/
def Spinner.default : Spinner :=
  { size := none, color := none }

/-- Embeds the `egui::Spinner` widget configuration built inside `Spinner::update`. -/
structure EguiSpinner where
  size : Option ℚ
  color : Option Color32
deriving DecidableEq

/-- `egui::Spinner::new()`: no size, no color set. -/
def EguiSpinner.new : EguiSpinner :=
  { size := none, color := none }

/-- `Spinner::update` (`src/lib.rs` lines 163-175): builds `egui::Spinner::new()`
and applies the size and color overrides when present. -/
def Spinner.update (self : Spinner) : EguiSpinner :=
  let spinner := EguiSpinner.new
  let spinner :=
    match self.size with
    | some size => { spinner with size := some size }
    | none => spinner
  let spinner :=
    match self.color with
    | some color => { spinner with color := some color }
    | none => spinner
  spinner

/-- `ModalSpinner` (`src/lib.rs` lines 21-28). -/
structure ModalSpinner where
  state : SpinnerState
  id : EguiId
  fill_color : Color32
  spinner : Spinner
  show_elapsed_time : Bool
deriving DecidableEq

/-- `ModalSpinner::new` (`src/lib.rs` lines 33-42). -/
def ModalSpinner.new : ModalSpinner :=
  { state := SpinnerState.Closed
    id := EguiId.ofString "_modal_spinner"
    fill_color := Color32.from_rgba_premultiplied 0 0 0 120
    spinner := Spinner.default
    show_elapsed_time := false }

/-- Builder setter `ModalSpinner::id` (`src/lib.rs` lines 45-48). -/
def ModalSpinner.set_id (self : ModalSpinner) (id : EguiId) : ModalSpinner :=
  { self with id := id }

/-- Builder setter `ModalSpinner::fill_color` (`src/lib.rs` lines 51-54). -/
def ModalSpinner.set_fill_color (self : ModalSpinner) (color : Color32) : ModalSpinner :=
  { self with fill_color := color }

/-- Builder setter `ModalSpinner::spinner_size` (`src/lib.rs` lines 57-60). -/
def ModalSpinner.set_spinner_size (self : ModalSpinner) (size : ℚ) : ModalSpinner :=
  { self with spinner := { self.spinner with size := some size } }

/-- Builder setter `ModalSpinner::spinner_color` (`src/lib.rs` lines 63-66). -/
def ModalSpinner.set_spinner_color (self : ModalSpinner) (color : Color32) : ModalSpinner :=
  { self with spinner := { self.spinner with color := some color } }

/-- Builder setter `ModalSpinner::show_elapsed_time` (`src/lib.rs` lines 69-72). -/
def ModalSpinner.set_show_elapsed_time (self : ModalSpinner) (b : Bool) : ModalSpinner :=
  { self with show_elapsed_time := b }

/-- `ModalSpinner::open` (`src/lib.rs` lines 86-88); `now` is the wall-clock
time `SystemTime::now()` captured at the call. -/
def ModalSpinner.open' (self : ModalSpinner) (now : Nat) : ModalSpinner :=
  { self with state := SpinnerState.Open now }

/-- `ModalSpinner::close` (`src/lib.rs` lines 91-93). -/
def ModalSpinner.close (self : ModalSpinner) : ModalSpinner :=
  { self with state := SpinnerState.Closed }

/-- The visuals part of the shared egui style that the widget touches. -/
structure Visuals where
  window_fill : Color32
deriving DecidableEq

/-- The spacing part of the shared egui style that the widget reads
(`interact_size.y`, the default interactive-element height). -/
structure Spacing where
  interact_size_y : ℚ
deriving DecidableEq

/-- The shared egui style. -/
structure Style where
  visuals : Visuals
  spacing : Spacing
deriving DecidableEq

/-- The per-frame input snapshot (`ctx.input`): the current screen rectangle. -/
structure InputState where
  screen_rect : Rect
deriving DecidableEq

/-- The egui context pieces the widget interacts with; `layers` is the layer
stacking order with the head of the list the top-most layer. -/
structure Context where
  input : InputState
  style : Style
  layers : List EguiId
deriving DecidableEq

/-- `ctx.style_mut(f)`: applies `f` to the shared style in place. -/
def Context.style_mut (ctx : Context) (f : Style → Style) : Context :=
  { ctx with style := f ctx.style }

/-- `egui::Area::show` creates or re-uses the layer keyed by `id`:
the layer is added to the stacking order when not already present. -/
def Context.show_area (ctx : Context) (id : EguiId) : Context :=
  { ctx with layers := if id ∈ ctx.layers then ctx.layers else ctx.layers ++ [id] }

/-- `ctx.move_to_top(layer)`: moves the layer to the top of the stacking order. -/
def Context.move_to_top (ctx : Context) (id : EguiId) : Context :=
  { ctx with layers := id :: ctx.layers.erase id }

/-- What one call to `ModalSpinner::update` draws when the spinner is open:
the overlay area configuration, the painted dimming rectangle, the vertical
spacing, the spinner glyph, and any elapsed-time readout drawn below it
(`none` when no readout is drawn). -/
structure AreaOutput where
  id : EguiId
  interactable : Bool
  movable : Bool
  fixed_pos : ℚ × ℚ
  sense_click : Bool
  painted_rect : Rect
  rounding : ℚ
  paint_color : Color32
  spacing_before : ℚ
  spinner_h : ℚ
  spinner_drawn : EguiSpinner
  elapsed_shown : Option Nat
deriving DecidableEq

/-- `ModalSpinner::update` (`src/lib.rs` lines 99-134).  `now` is the
wall-clock time of the frame; the Rust body never reads the clock (nothing
elapsed-time related is drawn).  Returns the spinner (whose fields the body
only reads), the mutated context, and the drawn overlay, `none` when closed. -/
def ModalSpinner.update (self : ModalSpinner) (_now : Nat) (ctx : Context) :
    ModalSpinner × Context × Option AreaOutput :=
  match self.state with
  | SpinnerState.Closed => (self, ctx, none)
  | SpinnerState.Open _ =>
    let screen_rect := ctx.input.screen_rect
    let ctx := ctx.style_mut fun s =>
      { s with visuals := { s.visuals with window_fill := self.fill_color } }
    let spinner_h := self.spinner.size.getD ctx.style.spacing.interact_size_y
    let out : AreaOutput :=
      { id := self.id
        interactable := true
        movable := false
        fixed_pos := screen_rect.left_top
        sense_click := true
        painted_rect := screen_rect
        rounding := 0
        paint_color := self.fill_color
        spacing_before := screen_rect.height / 2 - spinner_h / 2
        spinner_h := spinner_h
        spinner_drawn := self.spinner.update
        elapsed_shown := none }
    let ctx := ctx.show_area self.id
    let ctx := ctx.move_to_top self.id
    (self, ctx, some out)

/-- An `open()`/`close()` call; `open'` carries the wall-clock time captured
at the call. -/
inductive Call where
  | open' (t : Nat)
  | close
deriving DecidableEq

/-- Applies one `open`/`close` call to the spinner. -/
def applyCall (s : ModalSpinner) : Call → ModalSpinner
  | Call.open' t => s.open' t
  | Call.close => s.close

/-- Applies a sequence of `open`/`close` calls left to right. -/
def applyCalls (s : ModalSpinner) (cs : List Call) : ModalSpinner :=
  cs.foldl applyCall s

/-- The state a single call leaves the spinner in. -/
def Call.effect : Call → SpinnerState
  | Call.open' t => SpinnerState.Open t
  | Call.close => SpinnerState.Closed

/-- A configuration-setter call other than `id`. -/
inductive ConfigOp where
  | fillColor (c : Color32)
  | spinnerSize (q : ℚ)
  | spinnerColor (c : Color32)
  | showElapsedTime (b : Bool)
deriving DecidableEq

/-- Applies one non-`id` configuration setter. -/
def applyConfigOp (s : ModalSpinner) : ConfigOp → ModalSpinner
  | ConfigOp.fillColor c => s.set_fill_color c
  | ConfigOp.spinnerSize q => s.set_spinner_size q
  | ConfigOp.spinnerColor c => s.set_spinner_color c
  | ConfigOp.showElapsedTime b => s.set_show_elapsed_time b

/-- Applies a chain of non-`id` configuration setters left to right. -/
def applyConfigOps (s : ModalSpinner) (ops : List ConfigOp) : ModalSpinner :=
  ops.foldl applyConfigOp s

/-- A concrete screen rectangle for witnesses: 800 × 600 at the origin. -/
def rect0 : Rect :=
  { min_x := 0, min_y := 0, max_x := 800, max_y := 600 }

/-- A concrete context for witnesses: one pre-existing layer, a dark style. -/
def ctx0 : Context :=
  { input := { screen_rect := rect0 }
    style := { visuals := { window_fill := Color32.from_rgba_premultiplied 27 27 27 255 }
               spacing := { interact_size_y := 18 } }
    layers := [EguiId.ofString "background"] }

/- Helper lemmas -/

/-- One call leaves the spinner in exactly that call's effect state. -/
theorem applyCall_state (s : ModalSpinner) (c : Call) :
    (applyCall s c).state = c.effect := by
  cases c <;> rfl

/-- Non-`id` configuration setters never change the overlay identifier. -/
theorem applyConfigOps_id (ops : List ConfigOp) (s : ModalSpinner) :
    (applyConfigOps s ops).id = s.id := by
  induction ops generalizing s with
  | nil => rfl
  | cons op ops ih =>
    have h := ih (applyConfigOp s op)
    have hop : (applyConfigOp s op).id = s.id := by cases op <;> rfl
    simpa [applyConfigOps, hop] using h

/- Claim theorems -/

/-- C1: the claim says that with `show_elapsed_time` enabled and state
`Open(t0)`, `update` at time `t1 > t0` renders the elapsed duration
`t1 - t0` below the spinner glyph.  The code never reads the
`show_elapsed_time` field in `update` and draws no elapsed readout at all:
at the concrete failing input (enabled, opened at 0, frame at 5) an overlay
is drawn but its elapsed readout is absent, where the claim requires 5. -/
theorem C1_no_elapsed_time_rendered :
    ((ModalSpinner.new.set_show_elapsed_time true).open' 0).show_elapsed_time = true ∧
    ((ModalSpinner.new.set_show_elapsed_time true).open' 0).state = SpinnerState.Open 0 ∧
    (((ModalSpinner.new.set_show_elapsed_time true).open' 0).update 5 ctx0).2.2.map
      AreaOutput.elapsed_shown = some none := by
  refine ⟨rfl, rfl, rfl⟩

/-- C2: after any nonempty sequence of `open`/`close` calls, `state()` is
exactly the effect of the most recent call: `Open t` with `t` the time
captured at that last `open`, `Closed` when the last call was `close`,
regardless of the starting state. -/
theorem C2_state_reflects_last_call (s : ModalSpinner) (cs : List Call) (h : cs ≠ []) :
    (applyCalls s cs).state = (cs.getLast h).effect := by
  induction cs generalizing s with
  | nil => exact absurd rfl h
  | cons c cs ih =>
    cases cs with
    | nil => simpa [applyCalls] using applyCall_state s c
    | cons c2 cs2 =>
      have h2 : c2 :: cs2 ≠ [] := by simp
      have := ih (applyCall s c) h2
      simpa [applyCalls, List.getLast_cons] using this

/-- C2 witness: `open(1); open(2); close; open(7)` from a fresh spinner ends
in `Open 7`, the effect of the most recent call. -/
theorem C2_state_reflects_last_call_witness :
    (applyCalls ModalSpinner.new
      [Call.open' 1, Call.open' 2, Call.close, Call.open' 7]).state =
      SpinnerState.Open 7 :=
  C2_state_reflects_last_call ModalSpinner.new
    [Call.open' 1, Call.open' 2, Call.close, Call.open' 7] (by simp)

/-- C3: when the state is `Closed`, `update` is a no-op: it returns the
spinner and the context unchanged and draws no overlay region. -/
theorem C3_update_closed_noop (s : ModalSpinner) (now : Nat) (ctx : Context)
    (h : s.state = SpinnerState.Closed) :
    s.update now ctx = (s, ctx, none) := by
  unfold ModalSpinner.update
  rw [h]

/-- C3 witness: a fresh (closed) spinner updated on the concrete context is
left unchanged, the context untouched, nothing drawn. -/
theorem C3_update_closed_noop_witness :
    ModalSpinner.new.update 0 ctx0 = (ModalSpinner.new, ctx0, none) :=
  C3_update_closed_noop ModalSpinner.new 0 ctx0 rfl

/-- C4: whenever `update` runs with state `Open`, it sets the shared
window-fill style to the configured fill color, and no path restores the
prior value: after `update` returns, the context's window fill equals
`fill_color` whatever it was before. -/
theorem C4_window_fill_set_and_not_restored (s : ModalSpinner) (t now : Nat)
    (ctx : Context) (h : s.state = SpinnerState.Open t) :
    (s.update now ctx).2.1.style.visuals.window_fill = s.fill_color := by
  unfold ModalSpinner.update
  rw [h]
  rfl

/-- C4 witness: a fresh spinner opened at time 3 and updated at time 5 on the
concrete context (whose window fill was dark gray) leaves the window fill
equal to the spinner's fill color. -/
theorem C4_window_fill_set_and_not_restored_witness :
    ((ModalSpinner.new.open' 3).update 5 ctx0).2.1.style.visuals.window_fill =
      (ModalSpinner.new.open' 3).fill_color :=
  C4_window_fill_set_and_not_restored (ModalSpinner.new.open' 3) 3 5 ctx0 rfl

/-- C5: `new()` yields state `Closed`, the default semi-transparent black
fill (premultiplied rgba (0,0,0,120): black channels, alpha strictly between
fully transparent and fully opaque), default spinner visuals (no size
override, no color override), and the elapsed-time display off. -/
theorem C5_new_defaults :
    ModalSpinner.new.state = SpinnerState.Closed ∧
    ModalSpinner.new.fill_color = Color32.from_rgba_premultiplied 0 0 0 120 ∧
    ModalSpinner.new.fill_color.r = 0 ∧
    ModalSpinner.new.fill_color.g = 0 ∧
    ModalSpinner.new.fill_color.b = 0 ∧
    0 < ModalSpinner.new.fill_color.a ∧
    ModalSpinner.new.fill_color.a < 255 ∧
    ModalSpinner.new.spinner = Spinner.default ∧
    ModalSpinner.new.spinner.size = none ∧
    ModalSpinner.new.spinner.color = none ∧
    ModalSpinner.new.show_elapsed_time = false := by
  refine ⟨rfl, rfl, rfl, rfl, rfl, ?_, ?_, rfl, rfl, rfl, rfl⟩ <;> decide

/-- C6: the five builder setters pairwise commute: for every starting value
and arguments, applying any two distinct setters in either order yields the
same result; in particular `new().spinner_size(10.0).fill_color(C)` equals
`new().fill_color(C).spinner_size(10.0)` for every color `C`. -/
theorem C6_setters_commute (s : ModalSpinner) (i : EguiId) (c c2 : Color32)
    (q : ℚ) (b : Bool) :
    ((s.set_id i).set_fill_color c = (s.set_fill_color c).set_id i ∧
     (s.set_id i).set_spinner_size q = (s.set_spinner_size q).set_id i ∧
     (s.set_id i).set_spinner_color c = (s.set_spinner_color c).set_id i ∧
     (s.set_id i).set_show_elapsed_time b = (s.set_show_elapsed_time b).set_id i) ∧
    ((s.set_fill_color c).set_spinner_size q = (s.set_spinner_size q).set_fill_color c ∧
     (s.set_fill_color c).set_spinner_color c2 = (s.set_spinner_color c2).set_fill_color c ∧
     (s.set_fill_color c).set_show_elapsed_time b = (s.set_show_elapsed_time b).set_fill_color c) ∧
    ((s.set_spinner_size q).set_spinner_color c2 = (s.set_spinner_color c2).set_spinner_size q ∧
     (s.set_spinner_size q).set_show_elapsed_time b = (s.set_show_elapsed_time b).set_spinner_size q ∧
     (s.set_spinner_color c).set_show_elapsed_time b = (s.set_show_elapsed_time b).set_spinner_color c) ∧
    (ModalSpinner.new.set_spinner_size 10).set_fill_color c =
      (ModalSpinner.new.set_fill_color c).set_spinner_size 10 :=
  ⟨⟨rfl, rfl, rfl, rfl⟩, ⟨rfl, rfl, rfl⟩, ⟨rfl, rfl, rfl⟩, rfl⟩

/-- C7: each of `fill_color`, `spinner_size`, `spinner_color` and
`show_elapsed_time` assigns exactly its own field and leaves every other
field of the spinner — state, id, and the remaining configuration —
unchanged. -/
theorem C7_setters_touch_only_own_field (s : ModalSpinner) (c c2 : Color32)
    (q : ℚ) (b : Bool) :
    ((s.set_fill_color c).fill_color = c ∧
     (s.set_fill_color c).state = s.state ∧ (s.set_fill_color c).id = s.id ∧
     (s.set_fill_color c).spinner = s.spinner ∧
     (s.set_fill_color c).show_elapsed_time = s.show_elapsed_time) ∧
    ((s.set_spinner_size q).spinner.size = some q ∧
     (s.set_spinner_size q).spinner.color = s.spinner.color ∧
     (s.set_spinner_size q).state = s.state ∧ (s.set_spinner_size q).id = s.id ∧
     (s.set_spinner_size q).fill_color = s.fill_color ∧
     (s.set_spinner_size q).show_elapsed_time = s.show_elapsed_time) ∧
    ((s.set_spinner_color c2).spinner.color = some c2 ∧
     (s.set_spinner_color c2).spinner.size = s.spinner.size ∧
     (s.set_spinner_color c2).state = s.state ∧ (s.set_spinner_color c2).id = s.id ∧
     (s.set_spinner_color c2).fill_color = s.fill_color ∧
     (s.set_spinner_color c2).show_elapsed_time = s.show_elapsed_time) ∧
    ((s.set_show_elapsed_time b).show_elapsed_time = b ∧
     (s.set_show_elapsed_time b).state = s.state ∧ (s.set_show_elapsed_time b).id = s.id ∧
     (s.set_show_elapsed_time b).fill_color = s.fill_color ∧
     (s.set_show_elapsed_time b).spinner = s.spinner) :=
  ⟨⟨rfl, rfl, rfl, rfl, rfl⟩, ⟨rfl, rfl, rfl, rfl, rfl, rfl⟩,
   ⟨rfl, rfl, rfl, rfl, rfl, rfl⟩, ⟨rfl, rfl, rfl, rfl, rfl⟩⟩

/-- C8: when `update` draws (state `Open`), the spinner glyph height used
for centering is the configured size override when present and otherwise the
style's default interactive-element height, and the vertical spacing before
the glyph is half the screen height minus half that spinner height. -/
theorem C8_spinner_height_and_centering (s : ModalSpinner) (t now : Nat)
    (ctx : Context) (h : s.state = SpinnerState.Open t) :
    ∃ out, (s.update now ctx).2.2 = some out ∧
      out.spinner_h = s.spinner.size.getD ctx.style.spacing.interact_size_y ∧
      out.spacing_before =
        ctx.input.screen_rect.height / 2 - out.spinner_h / 2 := by
  unfold ModalSpinner.update
  rw [h]
  exact ⟨_, rfl, rfl, rfl⟩

/-- C8 witness: a spinner with size override 24, opened at 2, updated at 7 on
the concrete 800×600 context, draws an overlay whose glyph height is 24 and
whose spacing is 600/2 − 24/2 = 288. -/
theorem C8_spinner_height_and_centering_witness :
    (∃ out, (((ModalSpinner.new.set_spinner_size 24).open' 2).update 7 ctx0).2.2 = some out ∧
      out.spinner_h =
        ((ModalSpinner.new.set_spinner_size 24).open' 2).spinner.size.getD
          ctx0.style.spacing.interact_size_y ∧
      out.spacing_before = ctx0.input.screen_rect.height / 2 - out.spinner_h / 2) ∧
    ((ModalSpinner.new.set_spinner_size 24).open' 2).spinner.size.getD
        ctx0.style.spacing.interact_size_y = 24 ∧
    ctx0.input.screen_rect.height / 2 - 24 / 2 = 288 :=
  ⟨C8_spinner_height_and_centering ((ModalSpinner.new.set_spinner_size 24).open' 2)
      2 7 ctx0 rfl,
   rfl, by norm_num [ctx0, rect0, Rect.height]⟩

/-- C9: on every `update` with state `Open`, after drawing, the overlay's
layer is moved to the top of the stacking order: whatever layers the context
held before — overlays created earlier in the frame included — the top-most
layer after `update` returns is the spinner's overlay layer. -/
theorem C9_overlay_layer_on_top (s : ModalSpinner) (t now : Nat)
    (ctx : Context) (h : s.state = SpinnerState.Open t) :
    (s.update now ctx).2.1.layers.head? = some s.id := by
  unfold ModalSpinner.update
  rw [h]
  rfl

/-- C9 witness: a fresh spinner opened at 0 and updated on the concrete
context (which already holds another layer) ends with its own overlay layer
on top. -/
theorem C9_overlay_layer_on_top_witness :
    ((ModalSpinner.new.open' 0).update 1 ctx0).2.1.layers.head? =
      some (ModalSpinner.new.open' 0).id :=
  C9_overlay_layer_on_top (ModalSpinner.new.open' 0) 0 1 ctx0 rfl

/-- C10: every spinner built by `new()` carries the overlay identifier
derived from the string `"_modal_spinner"`, and no chain of non-`id`
configuration setters changes it; hence two instances configured from
`new()` without calling the `id` setter share an identical overlay layer
key. -/
theorem C10_default_id_shared (ops ops2 : List ConfigOp) :
    (applyConfigOps ModalSpinner.new ops).id = EguiId.ofString "_modal_spinner" ∧
    (applyConfigOps ModalSpinner.new ops).id =
      (applyConfigOps ModalSpinner.new ops2).id := by
  have h1 := applyConfigOps_id ops ModalSpinner.new
  have h2 := applyConfigOps_id ops2 ModalSpinner.new
  exact ⟨h1, h1.trans h2.symm⟩
